import Mathlib

-- Verification of the terminal-dungeon game core: a shallow embedding of the
-- screen/popup tick routing, the callback queue, the command-resolution system,
-- the camera projection, the tile map, the replay input source and the color
-- blending utilities, with theorems checking the specified properties.

namespace TerminalDungeon

/-- Player commands, as required by the callers in src/game/input_manager.rs
(which maps the key q to Command::Quit) and src/views/screens/game_screen.rs
(which matches on Command::Quit). Note that the declaration in
src/game/command.rs omits the Quit variant; see CommandDeclaration below. -/
inductive Command where
  | Up
  | Down
  | Left
  | Right
  | Quit
deriving DecidableEq

/-- The Command enum exactly as declared in src/game/command.rs: four variants,
with no Quit variant, even though other modules of the same crate reference
Command::Quit. -/
inductive CommandDeclaration where
  | Up
  | Down
  | Left
  | Right
deriving DecidableEq

/-- GameTick from src/game/command.rs. Duration is modelled as a natural number
of nanoseconds. -/
inductive GameTick where
  | Tick (deltatime : Nat)
  | Command (deltatime : Nat) (command : Command)
deriving DecidableEq

/-- remove_input_from_tick from src/views/screen_manager.rs: downgrades a
GameTick::Command to a GameTick::Tick keeping the deltatime; a Tick is returned
unchanged. -/
def remove_input_from_tick : GameTick → GameTick
  | GameTick.Command deltatime _ => GameTick.Tick deltatime
  | tick => tick

/-- The crossterm KeyCode variants (payload-free ones collapsed to their
constructor; only the code field of KeyEvent is inspected by the repository). -/
inductive KeyCode where
  | Backspace
  | Enter
  | LeftArrow
  | RightArrow
  | UpArrow
  | DownArrow
  | Home
  | End
  | PageUp
  | PageDown
  | Tab
  | BackTab
  | Delete
  | Insert
  | F (n : Nat)
  | Char (c : Char)
  | Null
  | Esc
deriving DecidableEq

/-- match_key_event from src/game/input_manager.rs: the fixed key table; the
wildcard arm sends every unrecognized key to Command::Up. -/
def match_key_event (key : KeyCode) : Command :=
  match key with
  | KeyCode.Char 'k' => Command.Up
  | KeyCode.Char 'j' => Command.Down
  | KeyCode.Char 'h' => Command.Left
  | KeyCode.Char 'l' => Command.Right
  | KeyCode.Char 'q' => Command.Quit
  | _ => Command.Up

/-- update_callback_queue from src/views/screen_manager.rs: the queue is
cleared, then the callbacks of each popup are appended iterating the popup Vec
from index 0, then the callbacks of each screen likewise. Since push_popup and
push_screen append at the end of the Vec and the render functions treat the
last element as the topmost view, index 0 is the bottom of the stack, so this
iteration runs bottom-to-top. Each view is abstracted to its list of queued
callbacks, and callbacks to an opaque label type. -/
def update_callback_queue {α : Type} (popups screens : List (List α)) : List α :=
  let queue : List α := []
  let queue := popups.foldl (fun q cbs => q ++ cbs) queue
  screens.foldl (fun q cbs => q ++ cbs) queue

/-- handle_callbacks from src/views/screen_manager.rs drains the queue built by
update_callback_queue from the front and invokes the callbacks in that order,
so the invocation order equals the queue order. -/
def handle_callbacks_order {α : Type} (popups screens : List (List α)) : List α :=
  update_callback_queue popups screens

/-- as_i32 from src/utility/conversions.rs: usize to i32, clamping to i32::MAX. -/
def as_i32 (num : Nat) : Int :=
  if num ≤ 2147483647 then (num : Int) else 2147483647

/-- as_usize from src/utility/conversions.rs: i32 to usize. On a 64-bit target
the conversion only fails for negative values, which are clamped to 0. -/
def as_usize (num : Int) : Nat :=
  num.toNat

/-- Tile from src/world/map.rs. -/
inductive Tile where
  | Blank
  | Wall
deriving DecidableEq

/-- Map from src/world/map.rs: a 2D grid of tiles. -/
structure Map where
  tiles : List (List Tile)
deriving DecidableEq

/-- Map::dimensions: (width, height), where height is the length of row 0;
(0, 0) for an empty map. -/
def Map.dimensions (m : Map) : Nat × Nat :=
  match m.tiles with
  | [] => (0, 0)
  | row :: _ => (m.tiles.length, row.length)

/-- Map::in_bounds from src/world/map.rs. -/
def Map.in_bounds (m : Map) (x y : Int) : Bool :=
  match m.tiles with
  | [] => false
  | row :: _ =>
    let width := as_i32 m.tiles.length
    let height := as_i32 row.length
    (decide (0 ≤ x) && decide (x < width)) && (decide (0 ≤ y) && decide (y < height))

/-- The indexing self.tiles[as_usize(x)][as_usize(y)] performed by Map::is_open,
as an Option (the Rust indexing panics when out of range). -/
def Map.tileAt (m : Map) (x y : Int) : Option Tile :=
  (m.tiles.get? (as_usize x)).bind (fun row => row.get? (as_usize y))

/-- Map::is_open from src/world/map.rs: out-of-bounds coordinates are open;
in bounds, Blank is open and anything else is not. -/
def Map.is_open (m : Map) (x y : Int) : Bool :=
  if !(m.in_bounds x y) then true
  else
    match m.tileAt x y with
    | some Tile.Blank => true
    | _ => false

/-- The crossterm Event type as consumed by the repository: Key events carry a
KeyCode (the modifier flags are never inspected), Mouse and Resize events are
only matched on their constructor. -/
inductive CEvent where
  | Key (code : KeyCode)
  | Mouse
  | Resize (w h : Nat)
deriving DecidableEq

/-- The crossterm ErrorKind variants; the only one this repository constructs is
IoError, carrying the message of the wrapped io::Error. -/
inductive ErrorKind where
  | IoError (msg : String)
  | FmtError
  | Utf8Error
  | ParseIntError
  | ResizingTerminalFailure (msg : String)
  | SettingTerminalTitleFailure
deriving DecidableEq

/-- The Rust-source name of an ErrorKind variant. -/
def errorKindName : ErrorKind → String
  | ErrorKind.IoError _ => "IoError"
  | ErrorKind.FmtError => "FmtError"
  | ErrorKind.Utf8Error => "Utf8Error"
  | ErrorKind.ParseIntError => "ParseIntError"
  | ErrorKind.ResizingTerminalFailure _ => "ResizingTerminalFailure"
  | ErrorKind.SettingTerminalTitleFailure => "SettingTerminalTitleFailure"

/-- FakeSource from src/game/source.rs: a queue of pre-recorded events. -/
structure FakeSource where
  events : List CEvent
deriving DecidableEq

/-- FakeSource::new: drains the input Vec front-to-back into the queue,
preserving order. -/
def FakeSource.new (events : List CEvent) : FakeSource :=
  ⟨events⟩

/-- FakeSource::has_event from src/game/source.rs: ignores the timeout and
reports whether the queue is non-empty. -/
def FakeSource.has_event (s : FakeSource) (_timeout : Nat) : Bool :=
  !s.events.isEmpty

/-- FakeSource::read from src/game/source.rs: pops the front event, or fails
with ErrorKind::IoError carrying the message of the io::Error built on the
spot. Returns the updated source together with the result. -/
def FakeSource.read (s : FakeSource) : FakeSource × Except ErrorKind CEvent :=
  match s.events with
  | [] => (s, Except.error (ErrorKind.IoError "Error in FakeSource!"))
  | e :: rest => (⟨rest⟩, Except.ok e)

/-- Per-entity view of the component storages read by CommandSystem::run:
whether the entity carries CommandResponse, whether it carries Collision, and
its Position component (none when the entity has no Position). The specs joins
in the source iterate exactly the entities having all joined components. -/
structure EntityState where
  command_response : Bool
  collision : Bool
  position : Option (Int × Int)
deriving DecidableEq

/-- The snapshot loop at the top of CommandSystem::run: the positions of all
entities having both a Position and a Collision component, collected before
any CommandResponse entity moves. -/
def collidable_entity_locations (entities : List EntityState) : List (Int × Int) :=
  entities.filterMap (fun e => if e.collision then e.position else none)

/-- get_target_position from src/systems/command_system.rs: index 0 of the
position vector is adjusted by Up and Down, index 1 by Left and Right; the
wildcard arm (reached by Quit) leaves the position unchanged. -/
def get_target_position (pos : Int × Int) (command : Command) : Int × Int :=
  match command with
  | Command.Up => (pos.1 - 1, pos.2)
  | Command.Down => (pos.1 + 1, pos.2)
  | Command.Left => (pos.1, pos.2 - 1)
  | Command.Right => (pos.1, pos.2 + 1)
  | _ => pos

/-- can_move_onto from src/systems/command_system.rs: the map reports the
location open and no collidable location equals it component-wise. -/
def can_move_onto (location : Int × Int) (m : Map)
    (collidable_locations : List (Int × Int)) : Bool :=
  m.is_open location.1 location.2 &&
    !(collidable_locations.any (fun v => v.1 == location.1 && v.2 == location.2))

/-- The main loop of CommandSystem::run: on a Command tick, each entity with
both CommandResponse and Position moves to its target position when
can_move_onto allows it, checked against the pre-tick collidable snapshot; on a
plain Tick nothing is mutated. -/
def command_system_run (tick : GameTick) (m : Map) (entities : List EntityState) :
    List EntityState :=
  let collidable := collidable_entity_locations entities
  entities.map (fun e =>
    match e.command_response, e.position with
    | true, some pos =>
      match tick with
      | GameTick.Command _ command =>
        let new_position := get_target_position pos command
        if can_move_onto new_position m collidable then { e with position := some new_position }
        else e
      | GameTick.Tick _ => e
    | _, _ => e)

/-- The loop body of render_popups from src/views/screen_manager.rs, threaded
over the list of popup indices: the index equal to len - 1 (the topmost popup)
is rendered with the threaded tick, which is then downgraded; every other index
is rendered with a downgraded copy, leaving the threaded tick unchanged.
Returns the tick each visited index received and the final threaded tick. -/
def renderPopupsAux (len : Nat) : List Nat → GameTick → List GameTick × GameTick
  | [], tick => ([], tick)
  | i :: rest, tick =>
    if i = len - 1 then
      let res := renderPopupsAux len rest (remove_input_from_tick tick)
      (tick :: res.1, res.2)
    else
      let res := renderPopupsAux len rest tick
      (remove_input_from_tick tick :: res.1, res.2)

/-- render_popups from src/views/screen_manager.rs, abstracted to the tick each
popup receives: entry i of the first component is the tick passed to the render
call of the popup at stack index i (index 0 = bottom of the stack, index
numPopups - 1 = topmost); the second component is the tick value after the
loop, which render then hands to the screen pass. -/
def render_popups (numPopups : Nat) (tick : GameTick) : List GameTick × GameTick :=
  renderPopupsAux numPopups (List.range numPopups) tick

/-- render_screens from src/views/screen_manager.rs: only the last (topmost)
screen has its render called, with the given tick. Entry j is the tick received
by the screen at stack index j; none means that screen receives nothing this
frame. -/
def render_screens (numScreens : Nat) (tick : GameTick) : List (Option GameTick) :=
  (List.range numScreens).map (fun j => if j + 1 = numScreens then some tick else none)

/-- render from src/views/screen_manager.rs: the popup pass, then the screen
pass on the tick value the popup pass returns. -/
def render (numScreens numPopups : Nat) (tick : GameTick) :
    List GameTick × List (Option GameTick) :=
  let popupResult := render_popups numPopups tick
  (popupResult.1, render_screens numScreens popupResult.2)

/-- The tui Color type. The u8 channel payloads are modelled as naturals. -/
inductive Color where
  | Reset
  | Black
  | Red
  | Green
  | Yellow
  | Blue
  | Magenta
  | Cyan
  | Gray
  | DarkGray
  | LightRed
  | LightGreen
  | LightYellow
  | LightBlue
  | LightMagenta
  | LightCyan
  | White
  | Rgb (r g b : Nat)
  | Indexed (i : Nat)
deriving DecidableEq

/-- The tui style Modifier flags. -/
inductive Modifier where
  | Bold
  | Dim
  | Italic
  | Underlined
  | SlowBlink
  | RapidBlink
  | Reversed
  | Hidden
  | CrossedOut
deriving DecidableEq

/-- CanvasSymbol from src/utility/text_canvas.rs. -/
structure CanvasSymbol where
  character : Char
  foreground : Color
  background : Color
  modifiers : List Modifier
deriving DecidableEq

/-- The Default impl of CanvasSymbol: a blank space on black. -/
def CanvasSymbol.default : CanvasSymbol :=
  ⟨' ', Color.Rgb 0 0 0, Color.Rgb 0 0 0, []⟩

/-- TextCanvas from src/utility/text_canvas.rs. -/
structure TextCanvas where
  symbols : List (List CanvasSymbol)
deriving DecidableEq

/-- TextCanvas::with_size: width columns of height default symbols each
(the grid is indexed symbols[x][y]). -/
def TextCanvas.with_size (width height : Nat) : TextCanvas :=
  ⟨List.replicate width (List.replicate height CanvasSymbol.default)⟩

/-- TextCanvas::dimensions: (width, height), height read from row 0;
(0, 0) for an empty canvas. -/
def TextCanvas.dimensions (c : TextCanvas) : Nat × Nat :=
  match c.symbols with
  | [] => (0, 0)
  | row :: _ => (c.symbols.length, row.length)

/-- TextCanvas::in_bounds from src/utility/text_canvas.rs. -/
def TextCanvas.in_bounds (c : TextCanvas) (x y : Int) : Bool :=
  match c.symbols with
  | [] => false
  | row :: _ =>
    let width := as_i32 c.symbols.length
    let height := as_i32 row.length
    (decide (0 ≤ x) && decide (x < width)) && (decide (0 ≤ y) && decide (y < height))

/-- The indexing self.symbols[v0][v1] used by the TextCanvas mutators, as an
Option (the Rust indexing panics when out of range). -/
def TextCanvas.symbolAt (c : TextCanvas) (v : Nat × Nat) : Option CanvasSymbol :=
  (c.symbols.get? v.1).bind (fun row => row.get? v.2)

/-- Position from src/entities/component.rs: a Vector2 of i32. -/
structure Position where
  vec2 : Int × Int
deriving DecidableEq

/-- world_to_canvas from src/systems/text_render_system.rs: shifts the world
coordinate by the camera center plus half the canvas dimensions and returns the
canvas cell, or None when the shifted coordinate is out of canvas bounds. -/
def world_to_canvas (xy : Int × Int) (camera_center : Position) (canvas : TextCanvas) :
    Option (Nat × Nat) :=
  let canvas_width := as_i32 canvas.dimensions.1
  let canvas_height := as_i32 canvas.dimensions.2
  let center_x := camera_center.vec2.1
  let center_y := camera_center.vec2.2
  let canvas_x := xy.1 - center_x + canvas_width / 2
  let canvas_y := xy.2 - center_y + canvas_height / 2
  if canvas.in_bounds canvas_x canvas_y then
    some (as_usize canvas_x, as_usize canvas_y)
  else none

/-- Modelled from the spec wording of claim P3: the window
[cx − W/2, cx + W/2) × [cy − H/2, cy + H/2), with integer division, outside of
which the claim asserts that projection yields None. -/
def claim_window (cx cy : Int) (W H : Nat) (x y : Int) : Prop :=
  (cx - (W : Int) / 2 ≤ x ∧ x < cx + (W : Int) / 2) ∧
  (cy - (H : Int) / 2 ≤ y ∧ y < cy + (H : Int) / 2)

/-- color_to_rgb from src/utility/color_util.rs: the named palette colors map
to fixed RGB triples and Rgb maps to itself; Gray, DarkGray, Reset and
Indexed reach an unimplemented todo branch, which panics: modelled as none. -/
def color_to_rgb : Color → Option Color
  | Color.Black => some (Color.Rgb 0 0 0)
  | Color.Red => some (Color.Rgb 201 27 0)
  | Color.Green => some (Color.Rgb 0 194 0)
  | Color.Yellow => some (Color.Rgb 199 196 0)
  | Color.Blue => some (Color.Rgb 2 37 199)
  | Color.Magenta => some (Color.Rgb 201 48 199)
  | Color.Cyan => some (Color.Rgb 0 197 199)
  | Color.White => some (Color.Rgb 254 255 255)
  | Color.LightRed => some (Color.Rgb 255 109 103)
  | Color.LightGreen => some (Color.Rgb 95 249 103)
  | Color.LightYellow => some (Color.Rgb 254 251 103)
  | Color.LightBlue => some (Color.Rgb 104 113 255)
  | Color.LightMagenta => some (Color.Rgb 255 118 255)
  | Color.LightCyan => some (Color.Rgb 95 253 255)
  | Color.Gray => none
  | Color.DarkGray => none
  | Color.Rgb r g b => some (Color.Rgb r g b)
  | Color.Reset => none
  | Color.Indexed _ => none

/-- nalgebra clamp as used by TextCanvas::apply_color: returns lo when the
value is not above it, hi when the value is not below it, and the value
otherwise. -/
def na_clamp (val lo hi : ℚ) : ℚ :=
  if val > lo then (if val < hi then val else hi) else lo

/-- One channel of TextCanvas::apply_color: base + (overlay − base) × alpha,
clamped to [0, 255]; the Rust cast to u8 of a float already clamped to
[0, 255] truncates toward zero, hence the floor of a non-negative value. The
f64 arithmetic is modelled over ℚ: every u8 channel is exact in f64 and the
operations at the claimed boundary alphas 0 and 1 are exact. -/
def blend_channel (c cA : Nat) (alpha : ℚ) : Nat :=
  (⌊na_clamp ((c : ℚ) + (((cA : ℚ) - (c : ℚ)) * alpha)) 0 255⌋).toNat

/-- TextCanvas::apply_color from src/utility/text_canvas.rs: converts both
colors (none models the todo panic), blends per channel when both convert to
Rgb, and otherwise returns the converted base color (a dead branch, since
color_to_rgb only ever returns Rgb values). -/
def apply_color (base_color color : Color) (alpha : ℚ) : Option Color :=
  match color_to_rgb base_color, color_to_rgb color with
  | some bc, some ac =>
    match bc, ac with
    | Color.Rgb r g b, Color.Rgb rA gA bA =>
      some (Color.Rgb (blend_channel r rA alpha) (blend_channel g gA alpha)
        (blend_channel b bA alpha))
    | bc2, _ => some bc2
  | _, _ => none

/-- TextCanvas::apply_fg_color: reads the foreground color of the symbol at
v (panic when out of range: none), applies apply_color with the overlay
(none when the blend panics) and writes the result back. -/
def apply_fg_color (c : TextCanvas) (v : Nat × Nat) (color : Color) (alpha : ℚ) :
    Option TextCanvas :=
  match c.symbols.get? v.1 with
  | none => none
  | some row =>
    match row.get? v.2 with
    | none => none
    | some sym =>
      match apply_color sym.foreground color alpha with
      | none => none
      | some newColor =>
        some ⟨c.symbols.set v.1 (row.set v.2 { sym with foreground := newColor })⟩

/-- C6: tick downgrade is idempotent and deltatime-preserving. Downgrading
twice equals downgrading once, downgrading a Tick is the identity, and
downgrading a Command yields a Tick with the same deltatime. -/
theorem C6_downgrade_idempotent (t : GameTick) (d : Nat) (c : Command) :
    remove_input_from_tick (remove_input_from_tick t) = remove_input_from_tick t ∧
    remove_input_from_tick (GameTick.Tick d) = GameTick.Tick d ∧
    remove_input_from_tick (GameTick.Command d c) = GameTick.Tick d := by
  refine ⟨?_, rfl, rfl⟩
  cases t <;> rfl

/-- C7: Map::is_open returns true outside the bounds of the map and on
in-bounds Blank tiles, false on in-bounds Wall tiles, and on the empty map
every coordinate is open. -/
theorem C7_map_openness (m : Map) (x y : Int) :
    (m.in_bounds x y = false → m.is_open x y = true) ∧
    (m.in_bounds x y = true → m.tileAt x y = some Tile.Blank → m.is_open x y = true) ∧
    (m.in_bounds x y = true → m.tileAt x y = some Tile.Wall → m.is_open x y = false) ∧
    (Map.is_open ⟨[]⟩ x y = true) := by
  refine ⟨fun h => ?_, fun h ht => ?_, fun h ht => ?_, rfl⟩
  · simp [Map.is_open, h]
  · simp [Map.is_open, h, ht]
  · simp [Map.is_open, h, ht]

/-- C7 witness: on the map [[Blank, Wall]] the coordinate (0, 1) is in bounds,
holds a Wall, and is reported not open. -/
theorem C7_map_openness_witness :
    Map.is_open ⟨[[Tile.Blank, Tile.Wall]]⟩ 0 1 = false := by
  exact (C7_map_openness ⟨[[Tile.Blank, Tile.Wall]]⟩ 0 1).2.2.1 (by decide) (by decide)

/-- C4: evaluation of the key table and of the Command declaration. The key
table maps k, j, h, l, q to Up, Down, Left, Right, Quit with unrecognized keys
falling back to Up, as the claim states; but the Command enum declared in
src/game/command.rs has exactly the four variants Up, Down, Left, Right and no
Quit, contradicting the callers of Command::Quit inside the same crate. -/
theorem C4_command_variants_eval :
    match_key_event (KeyCode.Char 'k') = Command.Up ∧
    match_key_event (KeyCode.Char 'j') = Command.Down ∧
    match_key_event (KeyCode.Char 'h') = Command.Left ∧
    match_key_event (KeyCode.Char 'l') = Command.Right ∧
    match_key_event (KeyCode.Char 'q') = Command.Quit ∧
    match_key_event (KeyCode.Char 'x') = Command.Up ∧
    match_key_event KeyCode.Esc = Command.Up ∧
    (∀ cd : CommandDeclaration,
      cd = CommandDeclaration.Up ∨ cd = CommandDeclaration.Down ∨
      cd = CommandDeclaration.Left ∨ cd = CommandDeclaration.Right) := by
  refine ⟨rfl, rfl, rfl, rfl, rfl, rfl, rfl, fun cd => ?_⟩
  cases cd <;> simp

/-- C2: evaluation of the callback collection order at the failing input.
Labels: 1 = the callback of popup P1 (topmost, Vec index 1), 2 = popup P2
(bottom, Vec index 0), 3 = screen S1 (topmost), 4 = screen S2 (bottom). The
code collects bottom-to-top, producing [2, 1, 4, 3], not the order
[1, 2, 3, 4] stated by the claim and by the doc comment of start_main_loop. -/
theorem C2_callback_order_eval :
    handle_callbacks_order [[2], [1]] [[4], [3]] = [2, 1, 4, 3] ∧
    handle_callbacks_order [[2], [1]] [[4], [3]] ≠ ([1, 2, 3, 4] : List Nat) := by
  exact ⟨rfl, by decide⟩

/-- C8 counterexample: reading the empty FakeSource fails with the kind
IoError (message "Error in FakeSource!"), whose variant name is not
ExhaustedSource; no ExhaustedSource kind exists in the code. -/
theorem C8_exhausted_source_counterexample :
    (FakeSource.new []).read =
      (FakeSource.new [], Except.error (ErrorKind.IoError "Error in FakeSource!")) ∧
    errorKindName (ErrorKind.IoError "Error in FakeSource!") ≠ "ExhaustedSource" := by
  exact ⟨rfl, by decide⟩

/-- C8 (amended): FakeSource never blocks: has_event ignores its timeout and is
true exactly when the queue is non-empty; read on an empty queue fails with an
IoError kind carrying the message "Error in FakeSource!" rather than returning
an event, and read on a non-empty queue pops and returns the front event. -/
theorem C8_fake_source_contract (s : FakeSource) (t₁ t₂ : Nat) :
    (s.has_event t₁ = !s.events.isEmpty) ∧
    (s.has_event t₁ = s.has_event t₂) ∧
    (s.events = [] →
      s.read = (s, Except.error (ErrorKind.IoError "Error in FakeSource!"))) ∧
    (∀ e rest, s.events = e :: rest → s.read = (⟨rest⟩, Except.ok e)) := by
  refine ⟨rfl, rfl, fun h => ?_, fun e rest h => ?_⟩
  · cases s
    simp_all [FakeSource.read]
  · cases s
    simp_all [FakeSource.read]

/-- C8 witness: the amended contract applied to the empty replay source. -/
theorem C8_fake_source_contract_witness :
    (FakeSource.new []).read =
      (FakeSource.new [], Except.error (ErrorKind.IoError "Error in FakeSource!")) := by
  exact (C8_fake_source_contract (FakeSource.new []) 0 1).2.2.1 rfl

theorem renderPopupsAux_not_mem (len : Nat) (l : List Nat) (tick : GameTick)
    (h : (len - 1) ∉ l) :
    renderPopupsAux len l tick = (l.map (fun _ => remove_input_from_tick tick), tick) := by
  induction l with
  | nil => rfl
  | cons i rest ih =>
    simp only [List.mem_cons, not_or] at h
    have hne : i ≠ len - 1 := Ne.symm h.1
    simp [renderPopupsAux, hne, ih h.2]

theorem renderPopupsAux_append (len : Nat) (l₁ l₂ : List Nat) (tick : GameTick) :
    renderPopupsAux len (l₁ ++ l₂) tick =
      ((renderPopupsAux len l₁ tick).1 ++
        (renderPopupsAux len l₂ (renderPopupsAux len l₁ tick).2).1,
        (renderPopupsAux len l₂ (renderPopupsAux len l₁ tick).2).2) := by
  induction l₁ generalizing tick with
  | nil => simp [renderPopupsAux]
  | cons i rest ih =>
    by_cases h : i = len - 1 <;> simp [renderPopupsAux, h, ih]

theorem render_popups_eq (n : Nat) (tick : GameTick) (hn : 1 ≤ n) :
    render_popups n tick =
      ((List.range (n - 1)).map (fun _ => remove_input_from_tick tick) ++ [tick],
        remove_input_from_tick tick) := by
  obtain ⟨m, rfl⟩ : ∃ m, n = m + 1 := ⟨n - 1, by omega⟩
  unfold render_popups
  rw [List.range_succ, renderPopupsAux_append]
  rw [renderPopupsAux_not_mem _ _ _ (by simp)]
  simp [renderPopupsAux]

/-- C1: per-frame tick routing. With at least one popup and a Command tick, the
topmost popup receives the Command verbatim, every popup below the top receives
the downgraded Tick with the same deltatime, the topmost screen receives the
downgraded Tick, and screens other than the topmost receive nothing; with no
popups, the topmost screen receives the original tick. -/
theorem C1_tick_routing (d : Nat) (c : Command) (numPopups numScreens : Nat) (t : GameTick)
    (hp : 1 ≤ numPopups) (hs : 1 ≤ numScreens) :
    ((render numScreens numPopups (GameTick.Command d c)).1)[numPopups - 1]? =
      some (GameTick.Command d c) ∧
    (∀ i, i < numPopups - 1 →
      ((render numScreens numPopups (GameTick.Command d c)).1)[i]? =
        some (GameTick.Tick d)) ∧
    ((render numScreens numPopups (GameTick.Command d c)).2)[numScreens - 1]? =
      some (some (GameTick.Tick d)) ∧
    (∀ j, j < numScreens - 1 →
      ((render numScreens numPopups (GameTick.Command d c)).2)[j]? = some none) ∧
    ((render numScreens 0 t).2)[numScreens - 1]? = some (some t) := by
  have hrp := render_popups_eq numPopups (GameTick.Command d c) hp
  have hlen : ((List.range (numPopups - 1)).map
      (fun _ => remove_input_from_tick (GameTick.Command d c))).length = numPopups - 1 := by
    simp
  refine ⟨?_, ?_, ?_, ?_, ?_⟩
  · show (render_popups numPopups (GameTick.Command d c)).1[numPopups - 1]? = _
    rw [hrp]
    rw [List.getElem?_append_right (by omega)]
    simp [hlen]
  · intro i hi
    show (render_popups numPopups (GameTick.Command d c)).1[i]? = _
    rw [hrp]
    rw [List.getElem?_append_left (by omega)]
    simp only [List.getElem?_map]
    rw [List.getElem?_range (by omega)]
    rfl
  · show (render_screens numScreens
      (render_popups numPopups (GameTick.Command d c)).2)[numScreens - 1]? = _
    rw [hrp]
    simp only [render_screens, List.getElem?_map]
    rw [List.getElem?_range (by omega)]
    have : numScreens - 1 + 1 = numScreens := by omega
    simp [this, remove_input_from_tick]
  · intro j hj
    show (render_screens numScreens
      (render_popups numPopups (GameTick.Command d c)).2)[j]? = some none
    simp only [render_screens, List.getElem?_map]
    rw [List.getElem?_range (by omega)]
    have : j + 1 ≠ numScreens := by omega
    simp [this]
  · show (render_screens numScreens (render_popups 0 t).2)[numScreens - 1]? = _
    have h0 : render_popups 0 t = ([], t) := rfl
    rw [h0]
    simp only [render_screens, List.getElem?_map]
    rw [List.getElem?_range (by omega)]
    have : numScreens - 1 + 1 = numScreens := by omega
    simp [this]

/-- C1 witness: two popups and two screens with a Command tick of deltatime 7,
and the no-popup case with two screens and a plain Tick. -/
theorem C1_tick_routing_witness :
    ((render 2 2 (GameTick.Command 7 Command.Up)).1)[1]? =
      some (GameTick.Command 7 Command.Up) ∧
    ((render 2 2 (GameTick.Command 7 Command.Up)).1)[0]? = some (GameTick.Tick 7) ∧
    ((render 2 2 (GameTick.Command 7 Command.Up)).2)[1]? =
      some (some (GameTick.Tick 7)) ∧
    ((render 2 2 (GameTick.Command 7 Command.Up)).2)[0]? = some none ∧
    ((render 2 0 (GameTick.Tick 3)).2)[1]? = some (some (GameTick.Tick 3)) := by
  have h := C1_tick_routing 7 Command.Up 2 2 (GameTick.Tick 3) (by decide) (by decide)
  exact ⟨h.1, h.2.1 0 (by decide), h.2.2.1, h.2.2.2.1 0 (by decide), h.2.2.2.2⟩

theorem can_move_onto_iff (loc : Int × Int) (m : Map) (coll : List (Int × Int)) :
    can_move_onto loc m coll = true ↔
      (m.is_open loc.1 loc.2 = true ∧ loc ∉ coll) := by
  simp only [can_move_onto, Bool.and_eq_true, Bool.not_eq_true', List.any_eq_false,
    Bool.and_eq_true, beq_iff_eq]
  constructor
  · rintro ⟨hopen, hall⟩
    refine ⟨hopen, fun hmem => ?_⟩
    exact hall loc hmem ⟨rfl, rfl⟩
  · rintro ⟨hopen, hnot⟩
    refine ⟨hopen, fun v hv hvl => ?_⟩
    have : v = loc := Prod.ext hvl.1 hvl.2
    exact hnot (this ▸ hv)

theorem get_target_position_ne (p : Int × Int) (cmd : Command)
    (h : cmd ≠ Command.Quit) : get_target_position p cmd ≠ p := by
  cases cmd <;> simp_all [get_target_position, Prod.ext_iff]

/-- C3: command-resolution postcondition. On a Command tick carrying one of the
four direction commands, an entity with both CommandResponse and Position ends
the tick at the target position (Up decrements coordinate x, Down increments x,
Left decrements y, Right increments y) exactly when the map reports the target
open and the target is not among the pre-tick snapshot of Collision-tagged
entity positions; when either condition fails, the entity is unchanged. -/
theorem C3_command_resolution (d : Nat) (cmd : Command) (m : Map)
    (entities : List EntityState) (i : Nat) (e : EntityState) (p : Int × Int)
    (hcmd : cmd ≠ Command.Quit)
    (he : entities[i]? = some e)
    (hcr : e.command_response = true)
    (hp : e.position = some p) :
    ((command_system_run (GameTick.Command d cmd) m entities)[i]? =
        some { e with position := some (get_target_position p cmd) } ↔
      (m.is_open (get_target_position p cmd).1 (get_target_position p cmd).2 = true ∧
        get_target_position p cmd ∉ collidable_entity_locations entities)) ∧
    (¬(m.is_open (get_target_position p cmd).1 (get_target_position p cmd).2 = true ∧
        get_target_position p cmd ∉ collidable_entity_locations entities) →
      (command_system_run (GameTick.Command d cmd) m entities)[i]? = some e) := by
  have hne : get_target_position p cmd ≠ p := get_target_position_ne p cmd hcmd
  have hres : (command_system_run (GameTick.Command d cmd) m entities)[i]? =
      some (if can_move_onto (get_target_position p cmd) m
              (collidable_entity_locations entities)
            then { e with position := some (get_target_position p cmd) } else e) := by
    simp only [command_system_run, List.getElem?_map, he, Option.map_some']
    rw [hcr, hp]
  by_cases hcan : can_move_onto (get_target_position p cmd) m
      (collidable_entity_locations entities) = true
  · rw [hcan] at hres
    simp only [if_true] at hres
    refine ⟨⟨fun _ => (can_move_onto_iff _ _ _).mp hcan, fun _ => hres⟩, fun hcon => ?_⟩
    exact absurd ((can_move_onto_iff _ _ _).mp hcan) hcon
  · have hcan' : can_move_onto (get_target_position p cmd) m
        (collidable_entity_locations entities) = false := by
      simpa using hcan
    rw [hcan'] at hres
    simp only [if_neg Bool.false_ne_true] at hres
    have hdiff : e ≠ { e with position := some (get_target_position p cmd) } := by
      intro heq
      have : e.position = some (get_target_position p cmd) := by
        rw [heq]
      rw [hp] at this
      exact hne (by injection this with h; exact h.symm)
    refine ⟨⟨fun habs => ?_, fun hok => ?_⟩, fun _ => hres⟩
    · rw [hres] at habs
      exact absurd (Option.some_injective _ habs) hdiff
    · exact absurd ((can_move_onto_iff _ _ _).mpr hok) (by simp [hcan'])

/-- C3 witness: one entity with CommandResponse at (5, 5) on the empty map
receiving Up moves to (4, 5). -/
theorem C3_command_resolution_witness :
    (command_system_run (GameTick.Command 0 Command.Up) ⟨[]⟩
        [⟨true, false, some (5, 5)⟩])[0]? = some ⟨true, false, some (4, 5)⟩ := by
  have h := C3_command_resolution 0 Command.Up ⟨[]⟩ [⟨true, false, some (5, 5)⟩] 0
      ⟨true, false, some (5, 5)⟩ (5, 5) (by decide) rfl rfl rfl
  have hmove := h.1.mpr ⟨by decide, by decide⟩
  simpa [get_target_position] using hmove

theorem as_i32_of_le (n : Nat) (h : n ≤ 2147483647) : as_i32 n = (n : Int) :=
  if_pos h

theorem with_size_dimensions (W H : Nat) (hW : 0 < W) :
    (TextCanvas.with_size W H).dimensions = (W, H) := by
  obtain ⟨m, rfl⟩ : ∃ m, W = m + 1 := ⟨W - 1, by omega⟩
  simp [TextCanvas.with_size, TextCanvas.dimensions, List.replicate_succ]

theorem with_size_in_bounds (W H : Nat) (hW : 0 < W) (x y : Int) :
    (TextCanvas.with_size W H).in_bounds x y =
      ((decide (0 ≤ x) && decide (x < as_i32 W)) &&
        (decide (0 ≤ y) && decide (y < as_i32 H))) := by
  obtain ⟨m, rfl⟩ : ∃ m, W = m + 1 := ⟨W - 1, by omega⟩
  simp [TextCanvas.with_size, TextCanvas.in_bounds, List.replicate_succ]

/-- C5 counterexample: with a 1×1 canvas and the camera at (0, 0), the claimed
window [cx − W/2, cx + W/2) × [cy − H/2, cy + H/2) is [0, 0) × [0, 0), which is
empty, so the world coordinate (0, 0) lies outside it; yet world_to_canvas
sends (0, 0) to the canvas cell (0, 0) rather than None. The claimed upper
bound cx + W/2 is wrong for odd dimensions: the code accepts coordinates up to
cx + (W − W/2). -/
theorem C5_projection_counterexample :
    ¬ claim_window 0 0 1 1 0 0 ∧
    world_to_canvas (0, 0) ⟨(0, 0)⟩ (TextCanvas.with_size 1 1) = some (0, 0) := by
  constructor
  · unfold claim_window
    omega
  · rfl

/-- C5 (amended): for a camera at (cx, cy) and a canvas of positive dimensions
(W, H), each within i32 range (the code clamps usize→i32 conversions),
projecting the world coordinate (cx, cy) yields the canvas cell (W/2, H/2)
under integer division, and projecting any world coordinate outside the window
[cx − W/2, cx + (W − W/2)) × [cy − H/2, cy + (H − H/2)) yields None. For even
W and H this window coincides with the claimed
[cx − W/2, cx + W/2) × [cy − H/2, cy + H/2); for odd dimensions the code
accepts one more column/row on the high side. -/
theorem C5_projection_roundtrip (cx cy : Int) (W H : Nat)
    (hW : 0 < W) (hH : 0 < H) (hWr : W ≤ 2147483647) (hHr : H ≤ 2147483647)
    (x y : Int) :
    world_to_canvas (cx, cy) ⟨(cx, cy)⟩ (TextCanvas.with_size W H) =
      some (W / 2, H / 2) ∧
    (¬((cx - (W : Int) / 2 ≤ x ∧ x < cx + ((W : Int) - (W : Int) / 2)) ∧
        (cy - (H : Int) / 2 ≤ y ∧ y < cy + ((H : Int) - (H : Int) / 2))) →
      world_to_canvas (x, y) ⟨(cx, cy)⟩ (TextCanvas.with_size W H) = none) := by
  constructor
  · simp only [world_to_canvas, with_size_dimensions W H hW,
      with_size_in_bounds W H hW, as_i32_of_le W hWr, as_i32_of_le H hHr]
    have hcond : ((decide (0 ≤ cx - cx + (W : Int) / 2) &&
        decide (cx - cx + (W : Int) / 2 < (W : Int))) &&
        (decide (0 ≤ cy - cy + (H : Int) / 2) &&
          decide (cy - cy + (H : Int) / 2 < (H : Int)))) = true := by
      simp only [Bool.and_eq_true, decide_eq_true_eq]
      omega
    rw [if_pos hcond]
    simp only [as_usize, Option.some.injEq, Prod.mk.injEq]
    omega
  · intro hout
    simp only [world_to_canvas, with_size_dimensions W H hW,
      with_size_in_bounds W H hW, as_i32_of_le W hWr, as_i32_of_le H hHr]
    rw [if_neg]
    intro hc
    simp only [Bool.and_eq_true, decide_eq_true_eq] at hc
    obtain ⟨⟨h1, h2⟩, h3, h4⟩ := hc
    exact hout ⟨⟨by omega, by omega⟩, by omega, by omega⟩

/-- C5 witness: a 4×4 canvas with the camera at (10, 20): the center projects
to (2, 2) and the coordinate (12, 20), outside the window on the high x side,
projects to None. -/
theorem C5_projection_roundtrip_witness :
    world_to_canvas (10, 20) ⟨(10, 20)⟩ (TextCanvas.with_size 4 4) = some (2, 2) ∧
    world_to_canvas (12, 20) ⟨(10, 20)⟩ (TextCanvas.with_size 4 4) = none := by
  have h := C5_projection_roundtrip 10 20 4 4 (by decide) (by decide) (by decide)
    (by decide) 12 20
  exact ⟨h.1, h.2 (by omega)⟩

theorem blend_channel_le_255 (c cA : Nat) (alpha : ℚ) : blend_channel c cA alpha ≤ 255 := by
  unfold blend_channel
  have h : na_clamp ((c : ℚ) + (((cA : ℚ) - (c : ℚ)) * alpha)) 0 255 ≤ 255 := by
    unfold na_clamp
    split_ifs with h1 h2
    · linarith
    · norm_num
    · norm_num
  have h255 : ⌊(255 : ℚ)⌋ = (255 : Int) := by
    norm_num
  have h2 := Int.floor_mono h
  rw [h255] at h2
  exact Int.toNat_le.mpr h2

theorem na_clamp_of_mem (v : ℚ) (h0 : 0 ≤ v) (h255 : v ≤ 255) :
    na_clamp v 0 255 = v := by
  unfold na_clamp
  split_ifs with h1 h2
  · rfl
  · exact (le_antisymm h255 (not_lt.mp h2)).symm
  · exact (le_antisymm (not_lt.mp h1) h0).symm

theorem blend_channel_alpha_zero (c cA : Nat) (hc : c ≤ 255) :
    blend_channel c cA 0 = c := by
  unfold blend_channel
  have hv : (c : ℚ) + (((cA : ℚ) - (c : ℚ)) * 0) = (c : ℚ) := by ring
  rw [hv, na_clamp_of_mem _ (by positivity) (by exact_mod_cast hc),
    Int.floor_natCast, Int.toNat_natCast]

theorem blend_channel_alpha_one (c cA : Nat) (hcA : cA ≤ 255) :
    blend_channel c cA 1 = cA := by
  unfold blend_channel
  have hv : (c : ℚ) + (((cA : ℚ) - (c : ℚ)) * 1) = (cA : ℚ) := by ring
  rw [hv, na_clamp_of_mem _ (by positivity) (by exact_mod_cast hcA),
    Int.floor_natCast, Int.toNat_natCast]

/-- C9: color blend boundaries. Blending black toward white with alpha 0 gives
black, with alpha 1 gives white, and for every alpha and every pair of Rgb
inputs each resulting channel lies in [0, 255] (channels are naturals, so the
lower bound is inherent). The per-channel formula with clamping and
truncation toward zero is blend_channel, which apply_color applies to each
channel. -/
theorem C9_color_blend (alpha : ℚ) (r g b rA gA bA : Nat) :
    apply_color (Color.Rgb 0 0 0) (Color.Rgb 255 255 255) 0 = some (Color.Rgb 0 0 0) ∧
    apply_color (Color.Rgb 0 0 0) (Color.Rgb 255 255 255) 1 = some (Color.Rgb 255 255 255) ∧
    ∃ r2 g2 b2,
      apply_color (Color.Rgb r g b) (Color.Rgb rA gA bA) alpha =
        some (Color.Rgb r2 g2 b2) ∧ r2 ≤ 255 ∧ g2 ≤ 255 ∧ b2 ≤ 255 := by
  refine ⟨?_, ?_, _, _, _, rfl, blend_channel_le_255 r rA alpha,
    blend_channel_le_255 g gA alpha, blend_channel_le_255 b bA alpha⟩
  · have h : apply_color (Color.Rgb 0 0 0) (Color.Rgb 255 255 255) 0 =
        some (Color.Rgb (blend_channel 0 255 0) (blend_channel 0 255 0)
          (blend_channel 0 255 0)) := rfl
    rw [h, blend_channel_alpha_zero 0 255 (by omega)]
  · have h : apply_color (Color.Rgb 0 0 0) (Color.Rgb 255 255 255) 1 =
        some (Color.Rgb (blend_channel 0 255 1) (blend_channel 0 255 1)
          (blend_channel 0 255 1)) := rfl
    rw [h, blend_channel_alpha_one 0 255 (by omega)]

theorem color_to_rgb_shape (c x : Color) (h : color_to_rgb c = some x) :
    ∃ r g b, x = Color.Rgb r g b := by
  cases c <;> simp [color_to_rgb] at h <;> exact ⟨_, _, _, h.symm⟩

theorem apply_color_eq_none_iff (base ov : Color) (alpha : ℚ) :
    apply_color base ov alpha = none ↔
      (color_to_rgb base = none ∨ color_to_rgb ov = none) := by
  rcases hb : color_to_rgb base with _ | bc
  · simp [apply_color, hb]
  · rcases ho : color_to_rgb ov with _ | ac
    · simp [apply_color, hb, ho]
    · obtain ⟨r, g, b, rfl⟩ := color_to_rgb_shape base bc hb
      obtain ⟨rA, gA, bA, rfl⟩ := color_to_rgb_shape ov ac ho
      simp [apply_color, hb, ho]

theorem apply_fg_color_eq_none_iff (canvas : TextCanvas) (v : Nat × Nat)
    (ov : Color) (alpha : ℚ) (sym : CanvasSymbol)
    (hsym : canvas.symbolAt v = some sym) :
    apply_fg_color canvas v ov alpha = none ↔
      apply_color sym.foreground ov alpha = none := by
  obtain ⟨row, h1, h2⟩ : ∃ row, canvas.symbols.get? v.1 = some row ∧
      row.get? v.2 = some sym := by
    unfold TextCanvas.symbolAt at hsym
    rcases h1 : canvas.symbols.get? v.1 with _ | row
    · rw [h1] at hsym
      simp at hsym
    · rw [h1] at hsym
      simp only [Option.some_bind] at hsym
      exact ⟨row, rfl, hsym⟩
  rw [List.get?_eq_getElem?] at h1 h2
  unfold apply_fg_color
  rcases h3 : apply_color sym.foreground ov alpha with _ | c2 <;> simp [h1, h2, h3]

/-- C10: the blend path is not total. color_to_rgb is undefined (a todo panic,
modelled as none) exactly on Gray, DarkGray, Reset and Indexed inputs;
apply_color aborts exactly when either of its two colors is one of those; and
apply_fg_color on an in-range cell aborts exactly when the cell foreground or
the overlay fails to convert. -/
theorem C10_color_conversion_partiality (c base ov : Color) (alpha : ℚ)
    (canvas : TextCanvas) (v : Nat × Nat) (sym : CanvasSymbol)
    (hsym : canvas.symbolAt v = some sym) :
    (color_to_rgb c = none ↔
      (c = Color.Gray ∨ c = Color.DarkGray ∨ c = Color.Reset ∨
        ∃ i, c = Color.Indexed i)) ∧
    (apply_color base ov alpha = none ↔
      (color_to_rgb base = none ∨ color_to_rgb ov = none)) ∧
    (apply_fg_color canvas v ov alpha = none ↔
      (color_to_rgb sym.foreground = none ∨ color_to_rgb ov = none)) := by
  refine ⟨?_, apply_color_eq_none_iff base ov alpha, ?_⟩
  · cases c <;> simp [color_to_rgb]
  · rw [apply_fg_color_eq_none_iff canvas v ov alpha sym hsym]
    exact apply_color_eq_none_iff sym.foreground ov alpha

/-- C10 witness: applying the Gray overlay to the cell (0, 0) of a fresh 1×1
canvas aborts, because color_to_rgb Gray reaches the todo branch. -/
theorem C10_color_conversion_partiality_witness :
    apply_fg_color (TextCanvas.with_size 1 1) (0, 0) Color.Gray 0 = none := by
  have h := C10_color_conversion_partiality Color.Gray Color.Black Color.Gray 0
    (TextCanvas.with_size 1 1) (0, 0) CanvasSymbol.default rfl
  exact h.2.2.mpr (Or.inr rfl)

end TerminalDungeon
